import Mathlib

/-!
Shallow embedding of the kamiyo-payai x402 payment core
(src/api/x402: models.py, database.py, payment_tracker.py, middleware.py,
payment_gateway.py, payment_verifier.py, risk_scorer.py).

Modelling conventions:
* Python `Decimal`/`float` money and risk values are modelled as `ℚ`
  (the arithmetic the code performs on them is exact at the granularity
  the claims mention).
* `datetime` values are modelled as `Int` instants on an abstract clock
  (the code only ever compares them and adds fixed offsets); the current
  time `datetime.utcnow()` is passed in explicitly.
* Python `int` counters are modelled as `Int`.
* The SQLAlchemy session is modelled as an explicit `DBState` record that
  every operation threads through.
* `hashlib.sha256` hashing of raw token secrets is abstracted as an
  explicit function parameter `h : String → String`.
-/

namespace X402

/-- Python `int()` applied to a nonnegative-or-negative rational:
truncation toward zero. -/
def pyInt (q : ℚ) : Int := if 0 ≤ q then ⌊q⌋ else ⌈q⌉

/-- Python `str.lower()`: character-wise case folding. -/
def pyLower (s : String) : String := String.mk (s.data.map Char.toLower)

/-- Python slicing `s[-n:]`: the last `n` characters. -/
def pyTakeRight (s : String) (n : Nat) : String :=
  String.mk (s.data.drop (s.data.length - n))

/-- Python `str.startswith(pre)`. -/
def pyStartsWith (s pre : String) : Bool := pre.data.isPrefixOf s.data

/-- models.py `X402Payment` (one row of `x402_payments`). -/
structure X402Payment where
  id : Nat
  tx_hash : String
  chain : String
  amount_usdc : ℚ
  from_address : String
  to_address : String
  block_number : Int
  confirmations : Int
  status : String
  risk_score : ℚ
  requests_allocated : Int
  requests_used : Int
  created_at : Int
  verified_at : Int
  expires_at : Int
  updated_at : Int
deriving Repr, DecidableEq

/-- models.py `X402Payment.requests_remaining`. -/
def X402Payment.requests_remaining (p : X402Payment) : Int :=
  p.requests_allocated - p.requests_used

/-- models.py `X402Token` (one row of `x402_tokens`). -/
structure X402Token where
  id : Nat
  token_hash : String
  payment_id : Nat
  created_at : Int
  expires_at : Int
  last_used_at : Option Int
deriving Repr, DecidableEq

/-- models.py `X402Token.is_valid`: `self.expires_at > datetime.utcnow()`.
It inspects only the token's own expiry, not the owning payment. -/
def X402Token.is_valid (t : X402Token) (now : Int) : Bool :=
  now < t.expires_at

/-- models.py `X402Usage` (one row of `x402_usage`). -/
structure X402Usage where
  payment_id : Nat
  endpoint : String
  method : String
  status_code : Int
  response_time_ms : Option Int
  ip_address : Option String
  user_agent : Option String
deriving Repr, DecidableEq

/-- The relational store the `X402Database` operations act on. -/
structure DBState where
  payments : List X402Payment
  tokens : List X402Token
  usage : List X402Usage
  nextPaymentId : Nat
deriving Repr, DecidableEq

namespace X402Database

/-- database.py `X402Database.get_payment_by_id`. -/
def get_payment_by_id (s : DBState) (payment_id : Nat) : Option X402Payment :=
  s.payments.find? (fun p => p.id == payment_id)

/-- database.py `X402Database.get_payment_by_tx_hash`. -/
def get_payment_by_tx_hash (s : DBState) (tx_hash : String) : Option X402Payment :=
  s.payments.find? (fun p => p.tx_hash == tx_hash)

/-- database.py `X402Database.create_payment`: if a row with the same
`tx_hash` exists return it unchanged, otherwise insert a fresh row with
status `verified` and `requests_used = 0`. -/
def create_payment (s : DBState) (now : Int) (tx_hash chain : String)
    (amount_usdc : ℚ) (from_address to_address : String)
    (block_number confirmations : Int) (risk_score : ℚ)
    (requests_allocated : Int) (expires_at : Int) : X402Payment × DBState :=
  match get_payment_by_tx_hash s tx_hash with
  | some existing => (existing, s)
  | none =>
      let p : X402Payment :=
        { id := s.nextPaymentId
          tx_hash := tx_hash
          chain := chain
          amount_usdc := amount_usdc
          from_address := from_address
          to_address := to_address
          block_number := block_number
          confirmations := confirmations
          status := "verified"
          risk_score := risk_score
          requests_allocated := requests_allocated
          requests_used := 0
          created_at := now
          verified_at := now
          expires_at := expires_at
          updated_at := now }
      (p, { s with payments := s.payments ++ [p],
                   nextPaymentId := s.nextPaymentId + 1 })

/-- database.py `X402Database.update_payment_usage`: fail if the payment is
absent or `requests_used >= requests_allocated`; otherwise increment
`requests_used` and flip status to `used` once exhausted. -/
def update_payment_usage (s : DBState) (now : Int) (payment_id : Nat) :
    Bool × DBState :=
  match get_payment_by_id s payment_id with
  | none => (false, s)
  | some p =>
      if p.requests_used ≥ p.requests_allocated then (false, s)
      else
        let used := p.requests_used + 1
        let p2 : X402Payment :=
          { p with requests_used := used
                   updated_at := now
                   status := if used ≥ p.requests_allocated then "used" else p.status }
        (true, { s with payments :=
                  s.payments.map (fun q => if q.id == payment_id then p2 else q) })

/-- database.py `X402Database.get_token_by_hash`. -/
def get_token_by_hash (s : DBState) (token_hash : String) : Option X402Token :=
  s.tokens.find? (fun t => t.token_hash == token_hash)

/-- database.py `X402Database.get_payment_by_token_hash`: look the token up
by hash; return nothing if absent or if `token.is_valid` is false (the
token's own expiry has passed); otherwise touch `last_used_at` and return
the owning payment via the `token.payment` relationship.  Note: the owning
payment's `status` is never consulted. -/
def get_payment_by_token_hash (s : DBState) (now : Int) (token_hash : String) :
    Option X402Payment × DBState :=
  match get_token_by_hash s token_hash with
  | none => (none, s)
  | some t =>
      if ¬ t.is_valid now then (none, s)
      else
        let t2 := { t with last_used_at := some now }
        (get_payment_by_id s t.payment_id,
         { s with tokens := s.tokens.map (fun u => if u.id == t.id then t2 else u) })

/-- database.py `X402Database.record_usage`: unconditionally append one
usage row. -/
def record_usage (s : DBState) (payment_id : Nat) (endpoint method : String)
    (status_code : Int) (response_time_ms : Option Int)
    (ip_address user_agent : Option String) : X402Usage × DBState :=
  let u : X402Usage :=
    { payment_id := payment_id
      endpoint := endpoint
      method := method
      status_code := status_code
      response_time_ms := response_time_ms
      ip_address := ip_address
      user_agent := user_agent }
  (u, { s with usage := s.usage ++ [u] })

end X402Database

/-- config.py `X402Config` (the fields the verified components read). -/
structure X402Config where
  requests_per_dollar : ℚ
  min_payment_usd : ℚ
  token_expiry_hours : Int
  enabled : Bool
deriving Repr, DecidableEq

/-- payment_tracker.py `PaymentTracker._payment_to_dict` output. -/
structure PaymentDict where
  id : Nat
  tx_hash : String
  chain : String
  amount_usdc : ℚ
  from_address : String
  to_address : String
  status : String
  risk_score : ℚ
  created_at : Int
  verified_at : Int
  expires_at : Int
  requests_allocated : Int
  requests_used : Int
  requests_remaining : Int
deriving Repr, DecidableEq

/-- payment_tracker.py `PaymentTracker._payment_to_dict`. -/
def payment_to_dict (p : X402Payment) : PaymentDict :=
  { id := p.id
    tx_hash := p.tx_hash
    chain := p.chain
    amount_usdc := p.amount_usdc
    from_address := p.from_address
    to_address := p.to_address
    status := p.status
    risk_score := p.risk_score
    created_at := p.created_at
    verified_at := p.verified_at
    expires_at := p.expires_at
    requests_allocated := p.requests_allocated
    requests_used := p.requests_used
    requests_remaining := p.requests_remaining }

namespace PaymentTracker

/-- payment_tracker.py `PaymentTracker.__init__` reads
`int(self.config.requests_per_dollar)`. -/
def requests_per_dollar (cfg : X402Config) : Int := pyInt cfg.requests_per_dollar

/-- payment_tracker.py `PaymentTracker.create_payment_record`: return the
existing row's dict if a payment with this `tx_hash` exists, otherwise
allocate `int(amount_usdc * requests_per_dollar)` requests, set
`expires_at = now + token_expiry_hours` and insert via
`X402Database.create_payment`. -/
def create_payment_record (cfg : X402Config) (s : DBState) (now : Int)
    (tx_hash chain : String) (amount_usdc : ℚ) (from_address to_address : String)
    (block_number confirmations : Int) (risk_score : ℚ) : PaymentDict × DBState :=
  match X402Database.get_payment_by_tx_hash s tx_hash with
  | some existing => (payment_to_dict existing, s)
  | none =>
      let requests_allocated := pyInt (amount_usdc * (requests_per_dollar cfg : ℚ))
      let expires_at := now + cfg.token_expiry_hours
      let r := X402Database.create_payment s now tx_hash chain amount_usdc
        from_address to_address block_number confirmations risk_score
        requests_allocated expires_at
      (payment_to_dict r.1, r.2)

/-- payment_tracker.py `PaymentTracker.get_payment_by_token`: hash the raw
secret with `h` (sha256 in the source) and delegate to
`X402Database.get_payment_by_token_hash`. -/
def get_payment_by_token (h : String → String) (s : DBState) (now : Int)
    (token : String) : Option PaymentDict × DBState :=
  let r := X402Database.get_payment_by_token_hash s now (h token)
  (r.1.map payment_to_dict, r.2)

/-- payment_tracker.py `PaymentTracker.record_usage`: first increment the
payment's usage counter via `X402Database.update_payment_usage`; if that
fails, raise `ValueError` (modelled as `Except.error`) WITHOUT appending a
usage row; only on success append the row via `X402Database.record_usage`. -/
def record_usage (s : DBState) (now : Int) (payment_id : Nat)
    (endpoint method : String) (status_code : Int)
    (response_time_ms : Option Int) (ip_address user_agent : Option String) :
    Except String Unit × DBState :=
  let upd := X402Database.update_payment_usage s now payment_id
  if ¬ upd.1 then
    (Except.error "Failed to update payment usage", upd.2)
  else
    (Except.ok (), (X402Database.record_usage upd.2 payment_id endpoint method
      status_code response_time_ms ip_address user_agent).2)

end PaymentTracker

/-! payment_verifier.py -/

/-- payment_verifier.py `PaymentVerification` dataclass. -/
structure PaymentVerification where
  is_valid : Bool
  tx_hash : String
  chain : String
  amount_usdc : ℚ
  from_address : String
  to_address : String
  block_number : Int
  confirmations : Int
  risk_score : ℚ
  error_message : Option String
deriving Repr, DecidableEq

/-- payment_verifier.py `ChainConfig`, merged with
`PaymentVerifier.get_payment_address` (which reads the per-chain receiving
address from the same configuration). -/
structure ChainConfig where
  name : String
  usdc_contract_address : String
  required_confirmations : Int
  usdc_decimals : Nat
  payment_address : String
deriving Repr, DecidableEq

/-- One entry of `tx_receipt.logs`: the emitting contract address, the hex
topic strings, and `int(log.data.hex(), 16)`. -/
structure EvmLog where
  address : String
  topics : List String
  data : Nat
deriving Repr, DecidableEq

/-- `web3.eth.get_transaction_receipt` result. -/
structure EvmReceipt where
  status : Int
  blockNumber : Int
  logs : List EvmLog
deriving Repr, DecidableEq

/-- Outcome of the receipt fetch inside the try-block of
`_verify_evm_payment`: web3 may raise `TransactionNotFound`, any other
exception may escape, or a (possibly falsy/None) receipt is returned. -/
inductive EvmFetchResult where
  | raisesNotFound
  | raisesOther (msg : String)
  | val (r : Option EvmReceipt)
deriving Repr, DecidableEq

/-- The chain-RPC environment `_verify_evm_payment` observes: the receipt
fetch outcome, the `web3.eth.get_transaction` sender/recipient, the current
block height, and the transaction age in seconds
(`datetime.utcnow() - block timestamp`). -/
structure EvmEnv where
  fetch : EvmFetchResult
  tx_from : String
  tx_to : Option String
  current_block : Int
  tx_age_seconds : Int
deriving Repr, DecidableEq

/-- `web3.keccak(text="Transfer(address,address,uint256)").hex()`, a fixed
hex constant. -/
def transfer_event_signature : String :=
  "0xddf252ad1be2c89b69c2b068fc378daa952ba7f163c4a11628f55a4df523b3ef"

/-- Decoding of an indexed address topic: the last 20 bytes (40 hex chars)
of the topic, reprefixed with 0x. -/
def topicAddress (topic : String) : String := "0x" ++ pyTakeRight topic 40

/-- The log filter of `_verify_evm_payment`: a Transfer event emitted by the
configured USDC contract whose destination topic is the gateway's receiving
address (case-insensitive comparisons as in the source). -/
def isQualifyingTransfer (cfg : ChainConfig) (log : EvmLog) : Bool :=
  log.topics.length ≥ 3 &&
  log.topics.headD "" == transfer_event_signature &&
  pyLower log.address == pyLower cfg.usdc_contract_address &&
  pyLower (topicAddress (log.topics.getD 2 "")) == pyLower cfg.payment_address

/-- payment_verifier.py `PaymentVerifier._calculate_risk_score`:
`min(0.1, 1.0)`. -/
def calculate_risk_score : ℚ := min (1/10) 1

/-- Shorthand for the invalid `PaymentVerification` results the verifier
builds on each failure path. -/
def pvInvalid (tx_hash chain : String) (amount : ℚ) (from_address to_address : String)
    (block_number confirmations : Int) (risk : ℚ) (msg : String) : PaymentVerification :=
  { is_valid := false, tx_hash := tx_hash, chain := chain, amount_usdc := amount,
    from_address := from_address, to_address := to_address,
    block_number := block_number, confirmations := confirmations,
    risk_score := risk, error_message := some msg }

/-- payment_verifier.py `PaymentVerifier._verify_evm_payment`, in source
order: fetch receipt (not-found/failure paths risk 1.0); execution status
check (risk 1.0); confirmations below the chain requirement (risk 0.5);
scan logs for the first qualifying USDC Transfer to the gateway address
(none found: risk 0.8); minimum amount (risk 0.3); 7-day staleness window
(risk 0.7); success carries `calculate_risk_score`. -/
def verify_evm_payment (cfg : ChainConfig) (min_payment : ℚ) (env : EvmEnv)
    (tx_hash chain : String) : PaymentVerification :=
  match env.fetch with
  | .raisesNotFound =>
      pvInvalid tx_hash chain 0 "" "" 0 0 1 "Transaction not found on chain"
  | .raisesOther _ =>
      pvInvalid tx_hash chain 0 "" "" 0 0 1 "Error verifying payment"
  | .val none =>
      pvInvalid tx_hash chain 0 "" "" 0 0 1 "Transaction not found"
  | .val (some receipt) =>
      if receipt.status ≠ 1 then
        pvInvalid tx_hash chain 0 "" "" receipt.blockNumber 0 1 "Transaction failed"
      else
        let confirmations := env.current_block - receipt.blockNumber
        if confirmations < cfg.required_confirmations then
          pvInvalid tx_hash chain 0 env.tx_from (env.tx_to.getD "")
            receipt.blockNumber confirmations (1/2) "Insufficient confirmations"
        else
          let found := receipt.logs.find? (isQualifyingTransfer cfg)
          let amount_usdc : ℚ := match found with
            | some log => (log.data : ℚ) / 10 ^ cfg.usdc_decimals
            | none => 0
          let from_address := match found with
            | some log => topicAddress (log.topics.getD 1 "")
            | none => ""
          let to_address := match found with
            | some log => topicAddress (log.topics.getD 2 "")
            | none => ""
          if amount_usdc = 0 then
            pvInvalid tx_hash chain 0 env.tx_from (env.tx_to.getD "")
              receipt.blockNumber confirmations (4/5)
              "No USDC transfer to payment address found in transaction"
          else if amount_usdc < min_payment then
            pvInvalid tx_hash chain amount_usdc from_address to_address
              receipt.blockNumber confirmations (3/10) "Payment amount too low"
          else if env.tx_age_seconds > 7 * 86400 then
            pvInvalid tx_hash chain amount_usdc from_address to_address
              receipt.blockNumber confirmations (7/10) "Transaction too old"
          else
            { is_valid := true, tx_hash := tx_hash, chain := chain,
              amount_usdc := amount_usdc, from_address := from_address,
              to_address := to_address, block_number := receipt.blockNumber,
              confirmations := confirmations, risk_score := calculate_risk_score,
              error_message := none }

/-- A parsed SPL token instruction (`instruction.parsed`): its type string,
source/destination accounts, the raw integer amount, and the explicit
decimal count carried by `transferChecked` variants. -/
structure SolParsed where
  itype : String
  source : String
  destination : String
  amountRaw : Nat
  tokenDecimals : Nat
deriving Repr, DecidableEq

/-- One entry of the Solana instruction list; only instructions carrying a
parsed payload are inspected. -/
structure SolInst where
  parsed : Option SolParsed
deriving Repr, DecidableEq

/-- `get_transaction` value for Solana: execution error, slot, and the
instruction list. -/
structure SolTx where
  err : Option String
  slot : Nat
  instructions : List SolInst
deriving Repr, DecidableEq

/-- Outcome of the Solana transaction fetch: an exception may escape, or a
(possibly None) transaction value is returned. -/
inductive SolFetchResult where
  | raisesOther (msg : String)
  | val (t : Option SolTx)
deriving Repr, DecidableEq

/-- The environment `_verify_solana_payment` observes. `signature_ok` is
whether `Signature.from_string` accepts the hash; `current_slot` is
`get_slot().value` (None and 0 are falsy and fall back to the tx slot). -/
structure SolEnv where
  client_initialized : Bool
  signature_ok : Bool
  fetch : SolFetchResult
  current_slot : Option Nat
deriving Repr, DecidableEq

/-- The instruction filter of `_verify_solana_payment`: a parsed
`transfer`/`transferChecked` whose destination is the configured Solana
receiving address (case-insensitive). -/
def isQualifyingSolTransfer (cfg : ChainConfig) (p : SolParsed) : Bool :=
  (p.itype == "transfer" || p.itype == "transferChecked") &&
  pyLower p.destination == pyLower cfg.payment_address

/-- Amount decoding for a parsed SPL transfer: `transferChecked` carries an
explicit decimal count, plain `transfer` defaults to 6 decimals. -/
def solTransferAmount (p : SolParsed) : ℚ :=
  (p.amountRaw : ℚ) / 10 ^ (if p.itype == "transferChecked" then p.tokenDecimals else 6)

/-- payment_verifier.py `PaymentVerifier._verify_solana_payment`, in source
order: client not initialized (risk 1.0); bad signature format (risk 1.0);
fetch failure / not found / execution error (risk 1.0); scan the
instruction list for the first qualifying SPL transfer to the gateway
address (none: risk 0.8); confirmations below requirement (risk 0.5);
minimum amount (risk 0.3); success carries `calculate_risk_score`. -/
def verify_solana_payment (cfg : ChainConfig) (min_payment : ℚ) (env : SolEnv)
    (tx_hash : String) : PaymentVerification :=
  if ¬ env.client_initialized then
    pvInvalid tx_hash "solana" 0 "" "" 0 0 1 "Solana client not initialized"
  else if ¬ env.signature_ok then
    pvInvalid tx_hash "solana" 0 "" "" 0 0 1 "Invalid Solana signature format"
  else
    match env.fetch with
    | .raisesOther _ =>
        pvInvalid tx_hash "solana" 0 "" "" 0 0 1 "Error verifying Solana payment"
    | .val none =>
        pvInvalid tx_hash "solana" 0 "" "" 0 0 1 "Transaction not found on Solana"
    | .val (some tx) =>
        match tx.err with
        | some _ =>
            pvInvalid tx_hash "solana" 0 "" "" tx.slot 0 1 "Transaction failed"
        | none =>
            let slot := tx.slot
            let current_slot := match env.current_slot with
              | some v => if v = 0 then slot else v
              | none => slot
            let confirmations : Int := (current_slot : Int) - (slot : Int)
            let found := tx.instructions.findSome? (fun inst =>
              match inst.parsed with
              | some p => if isQualifyingSolTransfer cfg p then some p else none
              | none => none)
            let amount_usdc : ℚ := match found with
              | some p => solTransferAmount p
              | none => 0
            let from_address := match found with
              | some p => p.source
              | none => ""
            let to_address := match found with
              | some p => p.destination
              | none => ""
            if amount_usdc = 0 then
              pvInvalid tx_hash "solana" 0 from_address to_address slot confirmations (4/5)
                "No USDC transfer to payment address found in transaction"
            else if confirmations < cfg.required_confirmations then
              pvInvalid tx_hash "solana" amount_usdc from_address to_address slot
                confirmations (1/2) "Insufficient confirmations"
            else if amount_usdc < min_payment then
              pvInvalid tx_hash "solana" amount_usdc from_address to_address slot
                confirmations (3/10) "Payment amount too low"
            else
              { is_valid := true, tx_hash := tx_hash, chain := "solana",
                amount_usdc := amount_usdc, from_address := from_address,
                to_address := to_address, block_number := slot,
                confirmations := confirmations, risk_score := calculate_risk_score,
                error_message := none }

/-- payment_verifier.py `PaymentVerifier.verify_payment`: unsupported chain
(risk 1.0), Solana dispatch, otherwise the EVM family. `chains` models the
`self.chains` table built by `setup_chains`. -/
def verifier_verify_payment (chains : String → Option ChainConfig)
    (min_payment : ℚ) (evmEnv : EvmEnv) (solEnv : SolEnv)
    (tx_hash chain : String) : PaymentVerification :=
  match chains chain with
  | none => pvInvalid tx_hash chain 0 "" "" 0 0 1 "Unsupported chain"
  | some cfg =>
      if chain = "solana" then verify_solana_payment cfg min_payment solEnv tx_hash
      else verify_evm_payment cfg min_payment evmEnv tx_hash chain

/-! middleware.py -/

/-- The authorization dicts the middleware and gateway tiers return. -/
structure AuthResult where
  is_valid : Bool
  payment_id : Option Nat
  payment_type : Option String
  risk_score : Option ℚ
  error : Option String
deriving Repr, DecidableEq

/-- An invalid authorization dict carrying only an error message. -/
def authInvalid (msg : String) : AuthResult :=
  { is_valid := false, payment_id := none, payment_type := none,
    risk_score := none, error := some msg }

/-- middleware.py `X402Middleware._validate_onchain_payment`: verify on
chain, reject invalid or below-minimum results; then the source calls
`self.payment_tracker.create_payment_record(tx_hash=..., chain=...,
amount_usdc=..., from_address=..., risk_score=...)`.  That call omits the
required parameters `to_address`, `block_number` and `confirmations` of
`PaymentTracker.create_payment_record`, so Python raises `TypeError` at
the call site; the enclosing `except Exception` converts it into an
invalid result `{'is_valid': False, 'error': str(e)}`. -/
def validate_onchain_payment (chains : String → Option ChainConfig)
    (min_payment : ℚ) (evmEnv : EvmEnv) (solEnv : SolEnv)
    (tx_hash chain : String) : AuthResult :=
  let verification := verifier_verify_payment chains min_payment evmEnv solEnv tx_hash chain
  if ¬ verification.is_valid then
    authInvalid ((verification.error_message).getD "Payment verification failed")
  else if verification.amount_usdc < min_payment then
    authInvalid "Payment amount too small"
  else
    authInvalid "TypeError: create_payment_record() missing 3 required keyword-only arguments: to_address, block_number and confirmations"

/-- middleware.py `X402Middleware._validate_payment_token`: look the token
up via `PaymentTracker.get_payment_by_token`; if nothing resolves, report
an invalid token.  When a record IS found, the next guard evaluates
`self.payment_tracker.get_current_time()`, but `PaymentTracker` defines no
method `get_current_time`, so Python raises `AttributeError`; the
enclosing `except Exception` converts it into an invalid result
`{'is_valid': False, 'error': str(e)}`. -/
def validate_payment_token (h : String → String) (s : DBState) (now : Int)
    (token : String) : AuthResult × DBState :=
  let r := PaymentTracker.get_payment_by_token h s now token
  match r.1 with
  | none => (authInvalid "Invalid payment token", r.2)
  | some _ =>
      (authInvalid "AttributeError: PaymentTracker object has no attribute get_current_time", r.2)

/-- What `X402Middleware.dispatch` does with a request: forward it to the
wrapped application (`call_next`) or answer with the 402 challenge built by
`_create_402_response`. -/
inductive DispatchOutcome where
  | passthrough
  | response402
deriving Repr, DecidableEq

/-- middleware.py `X402Middleware.dispatch`: skip when disabled, when
`_should_skip_payment_check` fires, or when `_get_payment_config` finds no
price for the endpoint.  The payment-authorization call and the
usage-recording call are abstracted as `Except` oracles: `auth` is the
outcome of `payment_gateway.verify_payment`/`_get_payment_authorization`
(`Except.error` models a raised exception, answered by a 402 — fail
closed), and `usage_result` the outcome of `payment_tracker.record_usage`
(both outcomes proceed — fail open). -/
def dispatch (cfg_enabled : Bool) (skip : Bool) (payment_config : Option ℚ)
    (auth : Except String AuthResult) (usage_result : Except String Unit) :
    DispatchOutcome :=
  if ¬ cfg_enabled then .passthrough
  else if skip then .passthrough
  else
    match payment_config with
    | none => .passthrough
    | some _ =>
        match auth with
        | .error _ => .response402
        | .ok a =>
            if a.is_valid then
              match usage_result with
              | .error _ => .passthrough
              | .ok _ => .passthrough
            else .response402

/-! payment_gateway.py -/

/-- payai_facilitator.py `VerificationResult`. -/
structure VerificationResult where
  is_valid : Bool
  payer : String
  invalid_reason : Option String
deriving Repr, DecidableEq

/-- payai_facilitator.py `SettlementResult`. -/
structure SettlementResult where
  success : Bool
  payer : String
  transaction : String
  network : String
  error_reason : Option String
deriving Repr, DecidableEq

/-- The payment headers `UnifiedPaymentGateway.verify_payment` reads from
the request (case-insensitive header lookup in the source). -/
structure GatewayHeaders where
  x_payment : Option String
  x_payment_tx : Option String
  x_payment_chain : Option String
  x_payment_token : Option String
deriving Repr, DecidableEq

/-- payment_gateway.py `UnifiedPaymentGateway._verify_payai_payment`: look
up the endpoint price; call the facilitator verify then settle (their
responses are the oracles `vres`/`sres`); on settled success record the
payment via `PaymentTracker.create_payment_record` with `block_number = 0`,
`confirmations = 1` and risk score `0.1`, and return the facilitator-tagged
authorization. -/
def verify_payai_payment (cfg : X402Config) (endpoint_price : Option ℚ)
    (payai_merchant : String) (s : DBState) (now : Int)
    (vres : VerificationResult) (sres : SettlementResult) :
    AuthResult × DBState :=
  match endpoint_price with
  | none => (authInvalid "Endpoint not configured for payments", s)
  | some price =>
      if ¬ vres.is_valid then
        (authInvalid (vres.invalid_reason.getD "PayAI verification failed"), s)
      else if ¬ sres.success then
        (authInvalid (sres.error_reason.getD "PayAI settlement failed"), s)
      else
        let r := PaymentTracker.create_payment_record cfg s now
          sres.transaction sres.network price sres.payer payai_merchant 0 1 (1/10)
        ({ is_valid := true, payment_id := some r.1.id,
           payment_type := some "payai_facilitator", risk_score := none,
           error := none }, r.2)

/-- payment_gateway.py `UnifiedPaymentGateway.verify_payment`: strict
priority order — PayAI facilitator tier (when the x-payment header is
present), then the native on-chain tier (when both the x-payment-tx and
x-payment-chain headers are present), then the native token tier, each
falling through to the next on an invalid result; with nothing left it
returns the fixed unauthorized result.  The native tiers delegate to the
middleware (`_validate_onchain_payment` / `_validate_payment_token`); that
delegation is abstracted as the result functions `native_onchain` and
`native_token`. -/
def gateway_verify_payment (cfg : X402Config) (endpoint_price : Option ℚ)
    (payai_merchant : String) (s : DBState) (now : Int) (hdrs : GatewayHeaders)
    (vres : VerificationResult) (sres : SettlementResult)
    (native_onchain : String → String → AuthResult)
    (native_token : String → AuthResult) : AuthResult × DBState :=
  let tier3 : DBState → AuthResult × DBState := fun s0 =>
    match hdrs.x_payment_token with
    | some tok =>
        let r := native_token tok
        if r.is_valid then (r, s0)
        else (authInvalid "No valid payment authorization found", s0)
    | none => (authInvalid "No valid payment authorization found", s0)
  let tier2 : DBState → AuthResult × DBState := fun s0 =>
    match hdrs.x_payment_tx, hdrs.x_payment_chain with
    | some tx, some ch =>
        let r := native_onchain tx ch
        if r.is_valid then (r, s0) else tier3 s0
    | _, _ => tier3 s0
  match hdrs.x_payment with
  | some _ =>
      let r1 := verify_payai_payment cfg endpoint_price payai_merchant s now vres sres
      if r1.1.is_valid then r1 else tier2 r1.2
  | none => tier2 s

/-! risk_scorer.py -/

/-- risk_scorer.py `RiskScore` dataclass (the factor map is carried as an
association list in insertion order, like the Python dict). -/
structure RiskScore where
  score : ℚ
  factors : List (String × ℚ)
  is_high_risk : Bool
deriving Repr, DecidableEq

/-- risk_scorer.py `RiskScorer._score_transaction_age` (the age in minutes
is precomputed from the optional timestamp). -/
def score_transaction_age (age_minutes : Option ℚ) : ℚ :=
  match age_minutes with
  | none => 3/10
  | some m =>
      if m < 5 then 2/5
      else if m < 30 then 1/5
      else if m < 60 * 24 then 1/10
      else 1/20

/-- risk_scorer.py: the per-chain confirmation requirements table inside
`_score_confirmations`. -/
def required_confirmations_table (chain : String) : Int :=
  if chain = "base" then 1
  else if chain = "polygon" then 3
  else if chain = "ethereum" then 3
  else if chain = "avalanche" then 1
  else if chain = "solana" then 1
  else if chain = "sei" then 1
  else if chain = "iotex" then 3
  else if chain = "peaq" then 1
  else 3

/-- risk_scorer.py `RiskScorer._score_confirmations`. -/
def score_confirmations (confirmations : Int) (chain : String) : ℚ :=
  let required := required_confirmations_table chain
  if confirmations ≥ required * 2 then 0
  else if confirmations ≥ required then 1/10
  else if confirmations ≥ 1 then 3/10
  else 7/10

/-- risk_scorer.py `RiskScorer._score_amount`. -/
def score_amount (amount : ℚ) : ℚ :=
  if amount < 1/10 then 1/2
  else if amount < 1 then 1/10
  else if amount < 100 then 1/20
  else if amount < 1000 then 1/10
  else 3/10

/-- risk_scorer.py `RiskScorer._score_chain`. -/
def score_chain (chain : String) : ℚ :=
  if chain = "base" then 1/20
  else if chain = "polygon" then 1/10
  else if chain = "ethereum" then 1/20
  else if chain = "avalanche" then 1/10
  else if chain = "solana" then 3/20
  else if chain = "sei" then 3/20
  else if chain = "iotex" then 1/5
  else if chain = "peaq" then 1/5
  else 1/4

/-- risk_scorer.py `RiskScorer._score_address_reputation` (the block and
allow lists in the source are empty placeholder sets, so after the format
heuristics every address scores 0.1).  Always returns a value. -/
def score_address_reputation (address chain : String) : ℚ :=
  if chain = "solana" then
    if address.length < 32 then 1/2 else 1/10
  else
    if ¬ (pyStartsWith address "0x" && address.length == 42) then 3/5
    else 1/10

/-- risk_scorer.py: the weight table inside `_calculate_weighted_score`
(`weights.get(factor, 0.1)`). -/
def factor_weight (name : String) : ℚ :=
  if name = "age" then 1/10
  else if name = "confirmations" then 3/10
  else if name = "amount" then 3/20
  else if name = "chain" then 3/20
  else if name = "address_reputation" then 1/5
  else if name = "external_api" then 1/10
  else 1/10

/-- risk_scorer.py `RiskScorer._calculate_weighted_score`: weighted sum
over whichever factors are present, divided by the total weight; 0.5 when
no factors are present; finally clamped into `[0, max_score]`. -/
def calculate_weighted_score (max_score : ℚ) (factors : List (String × ℚ)) : ℚ :=
  let total_weight := (factors.map (fun f => factor_weight f.1)).sum
  let total_score := (factors.map (fun f => f.2 * factor_weight f.1)).sum
  if total_weight = 0 then 1/2
  else min (max (total_score / total_weight) 0) max_score

/-- The factor map built by `RiskScorer.score_payment`: age, confirmations,
amount and chain are always inserted; `address_reputation` always (the
placeholder heuristic never returns None); `external_api` only when the
external service answered (`ext`). -/
def payment_factors (chain address : String) (amount : ℚ) (confirmations : Int)
    (age_minutes : Option ℚ) (ext : Option ℚ) : List (String × ℚ) :=
  [("age", score_transaction_age age_minutes),
   ("confirmations", score_confirmations confirmations chain),
   ("amount", score_amount amount),
   ("chain", score_chain chain),
   ("address_reputation", score_address_reputation address chain)] ++
  (match ext with
   | some e => [("external_api", e)]
   | none => [])

/-- risk_scorer.py `RiskScorer.score_payment`: build the factor map,
aggregate it through `_calculate_weighted_score`, and flag high risk when
the aggregate reaches `reject_threshold`. -/
def score_payment (max_score reject_threshold : ℚ) (chain address : String)
    (amount : ℚ) (confirmations : Int) (age_minutes : Option ℚ)
    (ext : Option ℚ) : RiskScore :=
  let factors := payment_factors chain address amount confirmations age_minutes ext
  let total_score := calculate_weighted_score max_score factors
  { score := total_score
    factors := factors
    is_high_risk := reject_threshold ≤ total_score }

/-- risk_scorer.py `RiskScorer.__init__` default `reject_threshold`. -/
def default_reject_threshold : ℚ := 4/5

/-- The aggregation rule as the specification words it: the weighted
average of the present factors with the stated weights, renormalized over
the present factors; 0.5 when none are present. -/
def spec_weighted_average (factors : List (String × ℚ)) : ℚ :=
  if factors = [] then 1/2
  else ((factors.map (fun f => f.2 * factor_weight f.1)).sum) /
       ((factors.map (fun f => factor_weight f.1)).sum)

/-! Auxiliary notions and concrete sample inputs used by the verification
theorems below. -/

/-- The conservation invariant of the payment counters:
`0 ≤ requests_used ≤ requests_allocated`. -/
def PaymentCounterOk (p : X402Payment) : Prop :=
  0 ≤ p.requests_used ∧ p.requests_used ≤ p.requests_allocated

instance (p : X402Payment) : Decidable (PaymentCounterOk p) := by
  unfold PaymentCounterOk; infer_instance

/-- A sequence of `consume` calls (each a current time and a payment id)
folded through `X402Database.update_payment_usage`. -/
def consume_sequence (s : DBState) (calls : List (Int × Nat)) : DBState :=
  calls.foldl (fun st c => (X402Database.update_payment_usage st c.1 c.2).2) s

/-- A sample payment row used by the concrete instances below. -/
def samplePayment (id : Nat) (used allocated : Int) (status : String)
    (expires_at : Int) : X402Payment :=
  { id := id, tx_hash := "0xtx" ++ toString id, chain := "base", amount_usdc := 1,
    from_address := "0xsender", to_address := "0xdest", block_number := 10,
    confirmations := 6, status := status, risk_score := 1/10,
    requests_allocated := allocated, requests_used := used,
    created_at := 0, verified_at := 0, expires_at := expires_at, updated_at := 0 }

/-- C3: a store holding an exhausted (`used`) payment and a token for it
whose own expiry (inherited from the payment) is still in the future. -/
def c3State : DBState :=
  { payments := [samplePayment 1 1 1 "used" 100]
    tokens := [{ id := 1, token_hash := "th", payment_id := 1, created_at := 0,
                 expires_at := 100, last_used_at := none }]
    usage := []
    nextPaymentId := 2 }

/-- C4: a store holding an exhausted payment (1 of 1 requests consumed). -/
def c4State : DBState :=
  { payments := [samplePayment 1 1 1 "used" 100], tokens := [], usage := [],
    nextPaymentId := 2 }

/-- A configuration with the source defaults for the fields the tracker
reads (`requests_per_dollar = 1000`, `min_payment_usd = 0.10`,
`token_expiry_hours = 24`). -/
def sampleConfig : X402Config :=
  { requests_per_dollar := 1000, min_payment_usd := 1/10,
    token_expiry_hours := 24, enabled := true }

/-- An empty store. -/
def emptyState : DBState :=
  { payments := [], tokens := [], usage := [], nextPaymentId := 1 }

/-- C10: a store holding an exhausted payment, for the metering-failure
path. -/
def c10State : DBState :=
  { payments := [samplePayment 1 1 1 "used" 100], tokens := [], usage := [],
    nextPaymentId := 2 }

/-- C10 witness: a store holding a payment with requests remaining. -/
def c10LiveState : DBState :=
  { payments := [samplePayment 2 0 5 "verified" 100], tokens := [], usage := [],
    nextPaymentId := 3 }

/-- Demo chain configuration for the base chain (6 required confirmations,
6 USDC decimals, a fixed lowercase receiving address). -/
def demoChainCfg : ChainConfig :=
  { name := "base", usdc_contract_address := "0xusdc",
    required_confirmations := 6, usdc_decimals := 6,
    payment_address := "0xaaaaaaaaaaaaaaaaaaaaaaaaaaaaaaaaaaaaaaaa" }

/-- A receipt log carrying a qualifying USDC Transfer of 1.0 USDC
(1000000 base units) to the demo receiving address. -/
def demoLog : EvmLog :=
  { address := "0xusdc"
    topics := [transfer_event_signature,
               "0x000000000000000000000000bbbbbbbbbbbbbbbbbbbbbbbbbbbbbbbbbbbbbbbb",
               "0x000000000000000000000000aaaaaaaaaaaaaaaaaaaaaaaaaaaaaaaaaaaaaaaa"]
    data := 1000000 }

/-- An EVM environment on which verification fully succeeds: successful
receipt with the qualifying transfer, 10 confirmations, 1 hour old. -/
def demoEvmEnv : EvmEnv :=
  { fetch := .val (some { status := 1, blockNumber := 10, logs := [demoLog] })
    tx_from := "0xsender", tx_to := some "0xusdc",
    current_block := 20, tx_age_seconds := 3600 }

/-- A Solana environment (unused by the base-chain demos). -/
def demoSolEnv : SolEnv :=
  { client_initialized := false, signature_ok := false,
    fetch := .val none, current_slot := none }

/-- The chain table holding only the demo base configuration. -/
def demoChains (c : String) : Option ChainConfig :=
  if c = "base" then some demoChainCfg else none

/-- C7: request headers carrying only the facilitator payment header. -/
def c7OnlyPayaiHeaders : GatewayHeaders :=
  { x_payment := some "b64hdr", x_payment_tx := none,
    x_payment_chain := none, x_payment_token := none }

/-- C7 witness: facilitator header plus native on-chain headers. -/
def c7BothHeaders : GatewayHeaders :=
  { x_payment := some "b64hdr", x_payment_tx := some "0xtx9",
    x_payment_chain := some "base", x_payment_token := none }

/-- C7: a facilitator verification that succeeds. -/
def c7VerifyOk : VerificationResult :=
  { is_valid := true, payer := "0xpayer", invalid_reason := none }

/-- C7: a facilitator settlement that fails with an explicit reason. -/
def c7SettleFail : SettlementResult :=
  { success := false, payer := "0xpayer", transaction := "", network := "base",
    error_reason := some "Settlement failed: insufficient gas" }

/-- C7 witness: a valid native on-chain authorization result. -/
def c7NativeOk : AuthResult :=
  { is_valid := true, payment_id := some 7, payment_type := some "onchain",
    risk_score := none, error := none }

/-- The row `PaymentTracker.create_payment_record` inserts when the
transaction hash is absent (used to state the idempotence proof). -/
def freshPayment (cfg : X402Config) (s : DBState) (now : Int) (tx chain : String)
    (amt : ℚ) (fa ta : String) (bn cf : Int) (rs : ℚ) : X402Payment :=
  { id := s.nextPaymentId, tx_hash := tx, chain := chain, amount_usdc := amt,
    from_address := fa, to_address := ta, block_number := bn,
    confirmations := cf, status := "verified", risk_score := rs,
    requests_allocated := pyInt (amt * (PaymentTracker.requests_per_dollar cfg : ℚ)),
    requests_used := 0, created_at := now, verified_at := now,
    expires_at := now + cfg.token_expiry_hours, updated_at := now }

/-! ## Helper lemmas -/

/-- A failing `update_payment_usage` leaves the store unchanged. -/
lemma update_payment_usage_false_snd (s : DBState) (now : Int) (pid : Nat)
    (h : (X402Database.update_payment_usage s now pid).1 = false) :
    (X402Database.update_payment_usage s now pid).2 = s := by
  unfold X402Database.update_payment_usage at h ⊢
  cases hf : X402Database.get_payment_by_id s pid with
  | none => rfl
  | some p =>
      rw [hf] at h
      dsimp only at h
      dsimp only
      by_cases hge : p.requests_used ≥ p.requests_allocated
      · rw [if_pos hge]
      · rw [if_neg hge] at h
        simp at h

/-- `update_payment_usage` never touches the usage log. -/
lemma update_payment_usage_usage (s : DBState) (now : Int) (pid : Nat) :
    (X402Database.update_payment_usage s now pid).2.usage = s.usage := by
  unfold X402Database.update_payment_usage
  cases hf : X402Database.get_payment_by_id s pid with
  | none => rfl
  | some p =>
      dsimp only
      by_cases hge : p.requests_used ≥ p.requests_allocated
      · rw [if_pos hge]
      · rw [if_neg hge]

/-- One `consume` step preserves the counter invariant on every payment. -/
lemma update_payment_usage_preserves_ok (s : DBState) (now : Int) (pid : Nat)
    (h : ∀ p ∈ s.payments, PaymentCounterOk p) :
    ∀ p ∈ (X402Database.update_payment_usage s now pid).2.payments, PaymentCounterOk p := by
  unfold X402Database.update_payment_usage
  cases hf : X402Database.get_payment_by_id s pid with
  | none => simpa using h
  | some p0 =>
      dsimp only
      by_cases hge : p0.requests_used ≥ p0.requests_allocated
      · rw [if_pos hge]; simpa using h
      · rw [if_neg hge]
        intro p hp
        rcases List.mem_map.mp hp with ⟨q, hq, hqe⟩
        by_cases hid : (q.id == pid) = true
        · rw [if_pos hid] at hqe
          have hp0 : p0 ∈ s.payments :=
            List.mem_of_find?_eq_some hf
          have hok := h p0 hp0
          subst hqe
          unfold PaymentCounterOk at hok ⊢
          dsimp only
          omega
        · rw [if_neg hid] at hqe
          subst hqe
          exact h q hq

/-- Every sequence of `consume` calls preserves the counter invariant. -/
lemma consume_sequence_preserves_ok (calls : List (Int × Nat)) :
    ∀ s : DBState, (∀ p ∈ s.payments, PaymentCounterOk p) →
    ∀ p ∈ (consume_sequence s calls).payments, PaymentCounterOk p := by
  induction calls with
  | nil => intro s h; simpa [consume_sequence] using h
  | cons c rest ih =>
      intro s h
      have hstep := update_payment_usage_preserves_ok s c.1 c.2 h
      simpa [consume_sequence] using ih _ hstep

/-! ## Claim theorems -/

/-- C1: the claim says that when the chain verifier reports a valid
qualifying transfer at or above the minimum, the on-chain tier records the
payment and returns a valid authorization tagged onchain.  In the code the
tier can never succeed: every branch of `_validate_onchain_payment` yields
an invalid result, and on the claim's premises (valid verification, amount
at or above the minimum) the result is exactly the TypeError of the
mis-called `create_payment_record`, caught by the except-clause. -/
theorem onchain_tier_never_authorizes (chains : String → Option ChainConfig)
    (mp : ℚ) (evmEnv : EvmEnv) (solEnv : SolEnv) (tx chain : String) :
    (validate_onchain_payment chains mp evmEnv solEnv tx chain).is_valid = false
    ∧ ((verifier_verify_payment chains mp evmEnv solEnv tx chain).is_valid = true →
       ¬ (verifier_verify_payment chains mp evmEnv solEnv tx chain).amount_usdc < mp →
       validate_onchain_payment chains mp evmEnv solEnv tx chain =
         authInvalid "TypeError: create_payment_record() missing 3 required keyword-only arguments: to_address, block_number and confirmations") := by
  constructor
  · unfold validate_onchain_payment
    dsimp only
    split
    · simp [authInvalid]
    · split <;> simp [authInvalid]
  · intro hv hm
    unfold validate_onchain_payment
    simp [hv, hm]

/-- C1 witness: on the demo environment the verifier reports a fully valid
1.0 USDC transfer (minimum is 0.1), yet the tier returns the
TypeError-produced invalid result instead of an onchain authorization. -/
theorem onchain_tier_never_authorizes_witness :
    validate_onchain_payment demoChains (1/10) demoEvmEnv demoSolEnv "0xtx" "base" =
      authInvalid "TypeError: create_payment_record() missing 3 required keyword-only arguments: to_address, block_number and confirmations" :=
  (onchain_tier_never_authorizes demoChains (1/10) demoEvmEnv demoSolEnv "0xtx" "base").2
    (by norm_num +decide [verifier_verify_payment, verify_evm_payment, demoChains,
      demoChainCfg, demoEvmEnv, demoLog, isQualifyingTransfer, pvInvalid,
      calculate_risk_score, topicAddress, pyTakeRight, pyLower,
      transfer_event_signature, List.find?])
    (by norm_num +decide [verifier_verify_payment, verify_evm_payment, demoChains,
      demoChainCfg, demoEvmEnv, demoLog, isQualifyingTransfer, pvInvalid,
      calculate_risk_score, topicAddress, pyTakeRight, pyLower,
      transfer_event_signature, List.find?])

/-- C2: the claim says a token resolving to a live payment with requests
remaining yields a valid authorization tagged token.  In the code the token
tier can never succeed: when no record resolves it reports an invalid
token, and when a record IS found the guard calls the nonexistent
`PaymentTracker.get_current_time`, raising AttributeError, which the
except-clause converts into an invalid result. -/
theorem token_tier_never_authorizes (h : String → String) (s : DBState)
    (now : Int) (token : String) :
    (validate_payment_token h s now token).1.is_valid = false := by
  unfold validate_payment_token
  dsimp only
  split <;> simp [authInvalid]

/-- C3 counterexample: in `c3State` the payment is exhausted (status
`used`) while its token's own expiry (100) is still ahead of the clock
(50); resolving the token returns that `used` payment, which the claim
forbids. -/
theorem resolveToken_returns_used_payment :
    ((X402Database.get_payment_by_token_hash c3State 50 "th").1.map X402Payment.status) =
      some "used" := by
  norm_num +decide [X402Database.get_payment_by_token_hash, X402Database.get_token_by_hash,
    X402Database.get_payment_by_id, c3State, samplePayment, X402Token.is_valid, List.find?]

/-- C3 (amended): resolving a raw token secret through the ledger returns
nothing exactly when the token is absent or its own `expires_at` has
passed; when the token is live it returns the owning payment WITHOUT
consulting the payment's status, so a payment whose status is `used` (or
`expired`, if the token outlives it) can be returned. -/
theorem resolveToken_checks_only_token_expiry (s : DBState) (now : Int) (th : String) :
    (X402Database.get_token_by_hash s th = none →
      (X402Database.get_payment_by_token_hash s now th).1 = none)
    ∧ (∀ t, X402Database.get_token_by_hash s th = some t →
        ((t.expires_at ≤ now →
          (X402Database.get_payment_by_token_hash s now th).1 = none)
         ∧ (now < t.expires_at →
          (X402Database.get_payment_by_token_hash s now th).1 =
            X402Database.get_payment_by_id s t.payment_id))) := by
  constructor
  · intro hn
    unfold X402Database.get_payment_by_token_hash
    rw [hn]
  · intro t ht
    constructor
    · intro hexp
      unfold X402Database.get_payment_by_token_hash
      rw [ht]
      have hval : t.is_valid now = false := by
        simp [X402Token.is_valid]; omega
      simp [hval]
    · intro hlive
      unfold X402Database.get_payment_by_token_hash
      rw [ht]
      have hval : t.is_valid now = true := by
        simp [X402Token.is_valid]; omega
      simp [hval]

/-- C3 witness: the amended rule applied to `c3State` at time 50: the live
token resolves to its owning payment row (whatever its status). -/
theorem resolveToken_checks_only_token_expiry_witness :
    (X402Database.get_payment_by_token_hash c3State 50 "th").1 =
      X402Database.get_payment_by_id c3State 1 :=
  (((resolveToken_checks_only_token_expiry c3State 50 "th").2
      { id := 1, token_hash := "th", payment_id := 1, created_at := 0,
        expires_at := 100, last_used_at := none }
      (by norm_num +decide [X402Database.get_token_by_hash, c3State, List.find?])).2)
    (by norm_num)

/-- C6: the dispatch loop of the interceptor fails closed on authorization
errors (an exception while evaluating payment authorization is answered
with the 402 challenge) and fails open on usage-recording errors (a
successful authorization proceeds to the handler whatever the recording
outcome). -/
theorem dispatch_failure_policy (price : ℚ)
    (auth : Except String AuthResult) (usage_result : Except String Unit) :
    (∀ e, auth = Except.error e →
      dispatch true false (some price) auth usage_result = DispatchOutcome.response402)
    ∧ (∀ a, auth = Except.ok a → a.is_valid = true →
      dispatch true false (some price) auth usage_result = DispatchOutcome.passthrough) := by
  constructor
  · intro e he
    subst he
    simp [dispatch]
  · intro a ha hv
    subst ha
    cases usage_result <;> simp [dispatch, hv]

/-- C6 witness: a raised authorization error on a priced endpoint is
answered with 402, at concrete inputs. -/
theorem dispatch_failure_policy_witness :
    dispatch true false (some 1) (Except.error "RPC exception") (Except.ok ()) =
      DispatchOutcome.response402 :=
  (dispatch_failure_policy 1 (Except.error "RPC exception") (Except.ok ())).1
    "RPC exception" rfl

/-- C10 counterexample: on `c10State` the payment is exhausted, the
metering step fails, `record_usage` raises ValueError — and the usage log
stays empty: the usage row is NOT appended, contradicting the claim that
usage is logged even when metering fails. -/
theorem record_usage_not_logged_on_metering_failure :
    (PaymentTracker.record_usage c10State 5 1 "/exploits" "GET" 200 none none none).1 =
      Except.error "Failed to update payment usage"
    ∧ (PaymentTracker.record_usage c10State 5 1 "/exploits" "GET" 200 none none none).2.usage =
      [] := by
  constructor <;>
    norm_num +decide [PaymentTracker.record_usage, X402Database.update_payment_usage,
      X402Database.get_payment_by_id, c10State, samplePayment, List.find?]

/-- C10 (amended): `record_usage` first runs the metering step; when the
increment fails it raises (returns the error) and appends NO usage row;
only after successful metering is the usage row appended. -/
theorem record_usage_appends_only_after_metering (s : DBState) (now : Int)
    (pid : Nat) (endpoint method : String) (sc : Int) (rt : Option Int)
    (ip ua : Option String) :
    ((X402Database.update_payment_usage s now pid).1 = false →
      (PaymentTracker.record_usage s now pid endpoint method sc rt ip ua).1 =
        Except.error "Failed to update payment usage"
      ∧ (PaymentTracker.record_usage s now pid endpoint method sc rt ip ua).2.usage =
        s.usage)
    ∧ ((X402Database.update_payment_usage s now pid).1 = true →
      (PaymentTracker.record_usage s now pid endpoint method sc rt ip ua).1 =
        Except.ok ()
      ∧ (PaymentTracker.record_usage s now pid endpoint method sc rt ip ua).2.usage =
        s.usage ++ [{ payment_id := pid, endpoint := endpoint, method := method,
                      status_code := sc, response_time_ms := rt, ip_address := ip,
                      user_agent := ua }]) := by
  constructor
  · intro hf
    unfold PaymentTracker.record_usage
    rw [if_pos (by simp [hf])]
    refine ⟨rfl, ?_⟩
    simp [update_payment_usage_false_snd s now pid hf]
  · intro ht
    unfold PaymentTracker.record_usage
    rw [if_neg (by simp [ht])]
    refine ⟨rfl, ?_⟩
    simp [X402Database.record_usage, update_payment_usage_usage]

/-- C10 witness: on a payment with requests remaining the metering step
succeeds and exactly one usage row is appended. -/
theorem record_usage_appends_only_after_metering_witness :
    (PaymentTracker.record_usage c10LiveState 5 2 "/exploits" "GET" 200 none none none).1 =
      Except.ok ()
    ∧ (PaymentTracker.record_usage c10LiveState 5 2 "/exploits" "GET" 200 none none none).2.usage =
      c10LiveState.usage ++ [{ payment_id := 2, endpoint := "/exploits", method := "GET",
                               status_code := 200, response_time_ms := none,
                               ip_address := none, user_agent := none }] :=
  (record_usage_appends_only_after_metering c10LiveState 5 2 "/exploits" "GET" 200
      none none none).2
    (by norm_num +decide [X402Database.update_payment_usage,
      X402Database.get_payment_by_id, c10LiveState, samplePayment, List.find?])

/-- C4: after any sequence of consume calls every payment still satisfies
`0 ≤ requests_used ≤ requests_allocated`; a consume on an exhausted payment
(`requests_used ≥ requests_allocated`) fails and leaves the store
unchanged; and the consume that makes `requests_used` reach
`requests_allocated` stores the incremented row with status `used`. -/
theorem consume_conservation_and_exhaustion (s : DBState) (calls : List (Int × Nat))
    (now : Int) (pid : Nat)
    (h0 : ∀ p ∈ s.payments, PaymentCounterOk p) :
    (∀ p ∈ (consume_sequence s calls).payments, PaymentCounterOk p)
    ∧ (∀ p, X402Database.get_payment_by_id s pid = some p →
        p.requests_used ≥ p.requests_allocated →
        X402Database.update_payment_usage s now pid = (false, s))
    ∧ (∀ p, X402Database.get_payment_by_id s pid = some p →
        p.requests_used < p.requests_allocated →
        p.requests_allocated ≤ p.requests_used + 1 →
        X402Database.update_payment_usage s now pid =
          (true, { s with payments := s.payments.map (fun q =>
              if q.id == pid then
                { p with requests_used := p.requests_used + 1,
                         updated_at := now, status := "used" }
              else q) })) := by
  refine ⟨consume_sequence_preserves_ok calls s h0, ?_, ?_⟩
  · intro p hf hge
    unfold X402Database.update_payment_usage
    rw [hf]
    dsimp only
    rw [if_pos hge]
  · intro p hf hlt hge
    unfold X402Database.update_payment_usage
    rw [hf]
    dsimp only
    rw [if_neg (not_le.mpr hlt), if_pos hge]

/-- C4 witness: on a store holding an exhausted payment (1 of 1 consumed),
a further consume fails and leaves the store unchanged. -/
theorem consume_conservation_and_exhaustion_witness :
    X402Database.update_payment_usage c4State 5 1 = (false, c4State) :=
  ((consume_conservation_and_exhaustion c4State [] 5 1
      (by norm_num [c4State, samplePayment, PaymentCounterOk])).2.1)
    (samplePayment 1 1 1 "used" 100)
    (by norm_num +decide [X402Database.get_payment_by_id, c4State, samplePayment, List.find?])
    (by norm_num [samplePayment])

/-- Helper: appending a row for a transaction hash absent from the list
makes the lookup find exactly that row. -/
lemma find?_append_fresh (l : List X402Payment) (tx : String) (p : X402Payment)
    (hp : p.tx_hash = tx)
    (h : l.find? (fun q => q.tx_hash == tx) = none) :
    (l ++ [p]).find? (fun q => q.tx_hash == tx) = some p := by
  rw [List.find?_append, h]
  simp [List.find?, hp]

/-- C5: recording the same transaction hash twice yields one row: the
second call returns the exact dict and store of the first (no duplicate,
no field modified), and the store holds exactly one row for that hash. -/
theorem recordPayment_idempotent (cfg : X402Config) (s : DBState) (now₁ now₂ : Int)
    (tx chain₁ chain₂ : String) (amt₁ amt₂ : ℚ) (fa₁ ta₁ fa₂ ta₂ : String)
    (bn₁ cf₁ bn₂ cf₂ : Int) (rs₁ rs₂ : ℚ)
    (h : X402Database.get_payment_by_tx_hash s tx = none) :
    (PaymentTracker.create_payment_record cfg
        (PaymentTracker.create_payment_record cfg s now₁ tx chain₁ amt₁ fa₁ ta₁ bn₁ cf₁ rs₁).2
        now₂ tx chain₂ amt₂ fa₂ ta₂ bn₂ cf₂ rs₂ =
      PaymentTracker.create_payment_record cfg s now₁ tx chain₁ amt₁ fa₁ ta₁ bn₁ cf₁ rs₁)
    ∧ (((PaymentTracker.create_payment_record cfg s now₁ tx chain₁ amt₁ fa₁ ta₁ bn₁ cf₁ rs₁).2.payments.filter
        (fun p => p.tx_hash == tx)).length = 1) := by
  have hmem : ∀ x ∈ s.payments, ¬ (x.tx_hash == tx) = true := by
    have h' : s.payments.find? (fun q => q.tx_hash == tx) = none := h
    exact fun x hx => by simpa using List.find?_eq_none.mp h' x hx
  have h1 : PaymentTracker.create_payment_record cfg s now₁ tx chain₁ amt₁ fa₁ ta₁ bn₁ cf₁ rs₁ =
      (payment_to_dict (freshPayment cfg s now₁ tx chain₁ amt₁ fa₁ ta₁ bn₁ cf₁ rs₁),
       { s with
         payments := s.payments ++ [freshPayment cfg s now₁ tx chain₁ amt₁ fa₁ ta₁ bn₁ cf₁ rs₁]
         nextPaymentId := s.nextPaymentId + 1 }) := by
    unfold PaymentTracker.create_payment_record X402Database.create_payment freshPayment
    rw [h]
  have h2 : X402Database.get_payment_by_tx_hash
      (PaymentTracker.create_payment_record cfg s now₁ tx chain₁ amt₁ fa₁ ta₁ bn₁ cf₁ rs₁).2 tx =
      some (freshPayment cfg s now₁ tx chain₁ amt₁ fa₁ ta₁ bn₁ cf₁ rs₁) := by
    rw [h1]
    exact find?_append_fresh s.payments tx _ rfl h
  constructor
  · conv_lhs => rw [PaymentTracker.create_payment_record, h2]
    rw [h1]
  · rw [h1]
    dsimp only
    rw [List.filter_append]
    have hnil : s.payments.filter (fun p => p.tx_hash == tx) = [] :=
      List.filter_eq_nil_iff.mpr hmem
    rw [hnil]
    simp [freshPayment, List.filter]

/-- C5 witness: recording the same hash twice starting from the empty
store. -/
theorem recordPayment_idempotent_witness :
    (PaymentTracker.create_payment_record sampleConfig
        (PaymentTracker.create_payment_record sampleConfig emptyState 0 "0xdup" "base" 1 "0xa" "0xb" 10 6 (1/10)).2
        3 "0xdup" "ethereum" 2 "0xc" "0xd" 11 7 (1/5) =
      PaymentTracker.create_payment_record sampleConfig emptyState 0 "0xdup" "base" 1 "0xa" "0xb" 10 6 (1/10))
    ∧ (((PaymentTracker.create_payment_record sampleConfig emptyState 0 "0xdup" "base" 1 "0xa" "0xb" 10 6 (1/10)).2.payments.filter
        (fun p => p.tx_hash == "0xdup")).length = 1) :=
  recordPayment_idempotent sampleConfig emptyState 0 3 "0xdup" "base" "ethereum" 1 2
    "0xa" "0xb" "0xc" "0xd" 10 6 11 7 (1/10) (1/5) (by norm_num [X402Database.get_payment_by_tx_hash, emptyState, List.find?])

/-- C7 counterexample: with only the facilitator header present, verify
succeeding and settle failing with reason "Settlement failed: insufficient
gas", the gateway answers with the fixed reason "No valid payment
authorization found" — NOT the settlement error reason the claim
promises. -/
theorem settle_failure_reason_not_returned :
    (gateway_verify_payment sampleConfig (some (1/100)) "0xmerchant" emptyState 0
      c7OnlyPayaiHeaders c7VerifyOk c7SettleFail (fun _ _ => authInvalid "native fail")
      (fun _ => authInvalid "token fail")).1.error =
      some "No valid payment authorization found"
    ∧ (gateway_verify_payment sampleConfig (some (1/100)) "0xmerchant" emptyState 0
      c7OnlyPayaiHeaders c7VerifyOk c7SettleFail (fun _ _ => authInvalid "native fail")
      (fun _ => authInvalid "token fail")).1.error ≠
      some "Settlement failed: insufficient gas" := by
  constructor <;>
    norm_num +decide [gateway_verify_payment, verify_payai_payment, c7OnlyPayaiHeaders,
      c7VerifyOk, c7SettleFail, authInvalid]

/-- C7 (amended): when the facilitator tier verifies but fails to settle,
the gateway falls through to the native on-chain tier if the transaction
and chain headers are present (and returns its valid result unchanged);
if no other payment header is present it returns unauthorized with the
generic reason "No valid payment authorization found" (the settlement
error reason is not propagated into the final result). -/
theorem settle_failure_fallthrough (cfg : X402Config) (price : Option ℚ) (p : ℚ)
    (pm : String) (s : DBState) (now : Int) (hdrs : GatewayHeaders) (ph : String)
    (vres : VerificationResult) (sres : SettlementResult)
    (no : String → String → AuthResult) (nt : String → AuthResult)
    (hph : hdrs.x_payment = some ph)
    (hprice : price = some p)
    (hv : vres.is_valid = true)
    (hs : sres.success = false) :
    (∀ tx ch, hdrs.x_payment_tx = some tx → hdrs.x_payment_chain = some ch →
      (no tx ch).is_valid = true →
      gateway_verify_payment cfg price pm s now hdrs vres sres no nt = (no tx ch, s))
    ∧ (hdrs.x_payment_tx = none → hdrs.x_payment_token = none →
      gateway_verify_payment cfg price pm s now hdrs vres sres no nt =
        (authInvalid "No valid payment authorization found", s)) := by
  have hr1 : verify_payai_payment cfg price pm s now vres sres =
      (authInvalid (sres.error_reason.getD "PayAI settlement failed"), s) := by
    unfold verify_payai_payment
    rw [hprice]
    dsimp only
    rw [if_neg (by simp [hv]), if_pos (by simp [hs])]
  constructor
  · intro tx ch htx hch hno
    unfold gateway_verify_payment
    rw [hph]
    dsimp only
    rw [hr1]
    rw [if_neg (by simp [authInvalid])]
    rw [htx, hch]
    dsimp only
    rw [if_pos hno]
  · intro htx htok
    unfold gateway_verify_payment
    rw [hph]
    dsimp only
    rw [hr1]
    rw [if_neg (by simp [authInvalid])]
    rw [htx, htok]

/-- C7 witness: concrete fall-through — facilitator verify ok, settle
fails, transaction and chain headers present, native verification valid:
the gateway returns the native authorization. -/
theorem settle_failure_fallthrough_witness :
    gateway_verify_payment sampleConfig (some (1/100)) "0xmerchant" emptyState 0
      c7BothHeaders c7VerifyOk c7SettleFail (fun _ _ => c7NativeOk)
      (fun _ => authInvalid "token fail") = (c7NativeOk, emptyState) :=
  ((settle_failure_fallthrough sampleConfig (some (1/100)) (1/100) "0xmerchant"
      emptyState 0 c7BothHeaders "b64hdr" c7VerifyOk c7SettleFail
      (fun _ _ => c7NativeOk) (fun _ => authInvalid "token fail")
      rfl rfl rfl rfl).1)
    "0xtx9" "base" rfl rfl rfl

/-- Helper: the risk envelope of the EVM verification path. -/
lemma evm_risk_envelope (cfg : ChainConfig) (mp : ℚ) (env : EvmEnv)
    (tx chain : String) :
    ((verify_evm_payment cfg mp env tx chain).is_valid = true →
      (verify_evm_payment cfg mp env tx chain).risk_score = 1/10)
    ∧ ((verify_evm_payment cfg mp env tx chain).is_valid = false →
      (verify_evm_payment cfg mp env tx chain).error_message.isSome = true
      ∧ 3/10 ≤ (verify_evm_payment cfg mp env tx chain).risk_score
      ∧ (verify_evm_payment cfg mp env tx chain).risk_score ≤ 1) := by
  unfold verify_evm_payment
  cases hf : env.fetch with
  | raisesNotFound => norm_num [pvInvalid]
  | raisesOther m => norm_num [pvInvalid]
  | val r =>
      cases r with
      | none => norm_num [pvInvalid]
      | some receipt =>
          dsimp only
          split_ifs <;>
            norm_num [pvInvalid, calculate_risk_score, min_def]

/-- Helper: the risk envelope of the Solana verification path. -/
lemma solana_risk_envelope (cfg : ChainConfig) (mp : ℚ) (env : SolEnv)
    (tx : String) :
    ((verify_solana_payment cfg mp env tx).is_valid = true →
      (verify_solana_payment cfg mp env tx).risk_score = 1/10)
    ∧ ((verify_solana_payment cfg mp env tx).is_valid = false →
      (verify_solana_payment cfg mp env tx).error_message.isSome = true
      ∧ 3/10 ≤ (verify_solana_payment cfg mp env tx).risk_score
      ∧ (verify_solana_payment cfg mp env tx).risk_score ≤ 1) := by
  unfold verify_solana_payment
  by_cases hc : env.client_initialized = true
  · rw [if_neg (by simp [hc])]
    by_cases hsig : env.signature_ok = true
    · rw [if_neg (by simp [hsig])]
      cases hf : env.fetch with
      | raisesOther m => norm_num [pvInvalid]
      | val t =>
          cases t with
          | none => norm_num [pvInvalid]
          | some txv =>
              dsimp only
              cases he : txv.err with
              | some e => norm_num [pvInvalid]
              | none =>
                  dsimp only
                  split_ifs <;>
                    norm_num [pvInvalid, calculate_risk_score, min_def]
    · rw [if_pos (by simpa using hsig)]
      norm_num [pvInvalid]
  · rw [if_pos (by simpa using hc)]
    norm_num [pvInvalid]

/-- C8 (amended): every successful verification carries risk score 0.1
(the fixed base score of `_calculate_risk_score`, not 0 as claimed), and
every failure path carries a structured error message and a provisional
risk score between 0.3 and 1.0. -/
theorem verify_risk_envelope (chains : String → Option ChainConfig) (mp : ℚ)
    (evmEnv : EvmEnv) (solEnv : SolEnv) (tx chain : String) :
    ((verifier_verify_payment chains mp evmEnv solEnv tx chain).is_valid = true →
      (verifier_verify_payment chains mp evmEnv solEnv tx chain).risk_score = 1/10)
    ∧ ((verifier_verify_payment chains mp evmEnv solEnv tx chain).is_valid = false →
      (verifier_verify_payment chains mp evmEnv solEnv tx chain).error_message.isSome = true
      ∧ 3/10 ≤ (verifier_verify_payment chains mp evmEnv solEnv tx chain).risk_score
      ∧ (verifier_verify_payment chains mp evmEnv solEnv tx chain).risk_score ≤ 1) := by
  unfold verifier_verify_payment
  cases hc : chains chain with
  | none => norm_num [pvInvalid]
  | some cfg =>
      dsimp only
      by_cases hch : chain = "solana"
      · rw [if_pos hch]
        exact solana_risk_envelope cfg mp solEnv tx
      · rw [if_neg hch]
        exact evm_risk_envelope cfg mp evmEnv tx chain

/-- C8 counterexample: a fully successful verification (demo environment)
carries risk score 0.1, not 0 as the claim states. -/
theorem verify_success_risk_not_zero :
    (verifier_verify_payment demoChains (1/10) demoEvmEnv demoSolEnv "0xtx" "base").is_valid = true
    ∧ (verifier_verify_payment demoChains (1/10) demoEvmEnv demoSolEnv "0xtx" "base").risk_score ≠ 0 := by
  constructor <;>
    norm_num +decide [verifier_verify_payment, verify_evm_payment, demoChains,
      demoChainCfg, demoEvmEnv, demoLog, isQualifyingTransfer, pvInvalid,
      calculate_risk_score, topicAddress, pyTakeRight, pyLower,
      transfer_event_signature, List.find?, min_def]

/-- C8 witness: a failure path (unsupported chain) carries an error
message and a risk score inside [0.3, 1.0]. -/
theorem verify_risk_envelope_witness :
    (verifier_verify_payment (fun _ => none) (1/10) demoEvmEnv demoSolEnv "0xtx" "zora").error_message.isSome = true
    ∧ 3/10 ≤ (verifier_verify_payment (fun _ => none) (1/10) demoEvmEnv demoSolEnv "0xtx" "zora").risk_score
    ∧ (verifier_verify_payment (fun _ => none) (1/10) demoEvmEnv demoSolEnv "0xtx" "zora").risk_score ≤ 1 :=
  (verify_risk_envelope (fun _ => none) (1/10) demoEvmEnv demoSolEnv "0xtx" "zora").2
    (by norm_num [verifier_verify_payment, pvInvalid])

/-- Helper: every weight in the factor-weight table is positive. -/
lemma factor_weight_pos (n : String) : 0 < factor_weight n := by
  unfold factor_weight
  split_ifs <;> norm_num

/-- Helper: the age factor lies in [0, 1]. -/
lemma score_transaction_age_range (m : Option ℚ) :
    0 ≤ score_transaction_age m ∧ score_transaction_age m ≤ 1 := by
  unfold score_transaction_age
  cases m with
  | none => norm_num
  | some v =>
      dsimp only
      split_ifs <;> norm_num

/-- Helper: the confirmations factor lies in [0, 1]. -/
lemma score_confirmations_range (c : Int) (chain : String) :
    0 ≤ score_confirmations c chain ∧ score_confirmations c chain ≤ 1 := by
  unfold score_confirmations
  dsimp only
  split_ifs <;> norm_num

/-- Helper: the amount factor lies in [0, 1]. -/
lemma score_amount_range (a : ℚ) : 0 ≤ score_amount a ∧ score_amount a ≤ 1 := by
  unfold score_amount
  split_ifs <;> norm_num

/-- Helper: the chain factor lies in [0, 1]. -/
lemma score_chain_range (c : String) : 0 ≤ score_chain c ∧ score_chain c ≤ 1 := by
  unfold score_chain
  split_ifs <;> norm_num

/-- Helper: the address-reputation factor lies in [0, 1]. -/
lemma score_address_reputation_range (a c : String) :
    0 ≤ score_address_reputation a c ∧ score_address_reputation a c ≤ 1 := by
  unfold score_address_reputation
  split_ifs <;> norm_num

/-- Helper: with the default max score of 1 and factor scores in [0, 1],
the clamped renormalized weighted average the code computes equals the
specification's renormalized weighted average. -/
lemma calculate_weighted_score_eq_spec (factors : List (String × ℚ))
    (hr : ∀ f ∈ factors, 0 ≤ f.2 ∧ f.2 ≤ 1) :
    calculate_weighted_score 1 factors = spec_weighted_average factors := by
  unfold calculate_weighted_score spec_weighted_average
  rcases factors with _ | ⟨f0, rest⟩
  · norm_num
  · dsimp only
    have hwpos : 0 < ((f0 :: rest).map (fun f => factor_weight f.1)).sum := by
      rw [List.map_cons, List.sum_cons]
      have h0 : 0 < factor_weight f0.1 := factor_weight_pos f0.1
      have hrest : 0 ≤ (rest.map (fun f => factor_weight f.1)).sum :=
        List.sum_nonneg (by
          intro x hx
          rcases List.mem_map.mp hx with ⟨g, _, rfl⟩
          exact (factor_weight_pos g.1).le)
      linarith
    have hts0 : 0 ≤ ((f0 :: rest).map (fun f => f.2 * factor_weight f.1)).sum :=
      List.sum_nonneg (by
        intro x hx
        rcases List.mem_map.mp hx with ⟨g, hg, rfl⟩
        exact mul_nonneg (hr g hg).1 (factor_weight_pos g.1).le)
    have hts1 : ((f0 :: rest).map (fun f => f.2 * factor_weight f.1)).sum ≤
        ((f0 :: rest).map (fun f => factor_weight f.1)).sum := by
      refine List.sum_le_sum ?_
      intro g hg
      calc g.2 * factor_weight g.1
          ≤ 1 * factor_weight g.1 :=
            mul_le_mul_of_nonneg_right (hr g hg).2 (factor_weight_pos g.1).le
        _ = factor_weight g.1 := one_mul _
    rw [if_neg (ne_of_gt hwpos), if_neg (by simp)]
    have hdiv0 : 0 ≤ ((f0 :: rest).map (fun f => f.2 * factor_weight f.1)).sum /
        ((f0 :: rest).map (fun f => factor_weight f.1)).sum :=
      div_nonneg hts0 hwpos.le
    have hdiv1 : ((f0 :: rest).map (fun f => f.2 * factor_weight f.1)).sum /
        ((f0 :: rest).map (fun f => factor_weight f.1)).sum ≤ 1 :=
      (div_le_one hwpos).mpr hts1
    rw [max_eq_left hdiv0, min_eq_left hdiv1]

/-- C9: with the default max score of 1, the overall score computed by
`score_payment` equals the specification's weighted average of the present
factors (renormalized over the present factors, weights as stated); with
no factors present the aggregate is 0.5; and the high-risk flag holds iff
the score reaches the reject threshold.  The factor map built by
`score_payment` always carries age, confirmations, amount, chain and
address-reputation (each provably in [0, 1]); the external factor, present
only when the external service answered, is assumed in [0, 1]. -/
theorem risk_score_weighted_average (rt : ℚ) (chain address : String)
    (amount : ℚ) (confirmations : Int) (age_minutes : Option ℚ) (ext : Option ℚ)
    (hext : ∀ e, ext = some e → 0 ≤ e ∧ e ≤ 1) :
    (score_payment 1 rt chain address amount confirmations age_minutes ext).score =
      spec_weighted_average (payment_factors chain address amount confirmations age_minutes ext)
    ∧ ((score_payment 1 rt chain address amount confirmations age_minutes ext).is_high_risk = true ↔
        rt ≤ (score_payment 1 rt chain address amount confirmations age_minutes ext).score)
    ∧ calculate_weighted_score 1 [] = 1/2 := by
  have hrange : ∀ f ∈ payment_factors chain address amount confirmations age_minutes ext,
      0 ≤ f.2 ∧ f.2 ≤ 1 := by
    intro f hf
    unfold payment_factors at hf
    cases ext with
    | none =>
        simp only [List.append_nil, List.mem_cons, List.not_mem_nil, or_false] at hf
        rcases hf with rfl | rfl | rfl | rfl | rfl
        · exact score_transaction_age_range age_minutes
        · exact score_confirmations_range confirmations chain
        · exact score_amount_range amount
        · exact score_chain_range chain
        · exact score_address_reputation_range address chain
    | some e =>
        simp only [List.mem_append, List.mem_cons, List.mem_singleton,
          List.not_mem_nil, or_false] at hf
        rcases hf with (rfl | rfl | rfl | rfl | rfl) | rfl
        · exact score_transaction_age_range age_minutes
        · exact score_confirmations_range confirmations chain
        · exact score_amount_range amount
        · exact score_chain_range chain
        · exact score_address_reputation_range address chain
        · exact hext e rfl
  refine ⟨?_, ?_, by norm_num [calculate_weighted_score]⟩
  · unfold score_payment
    dsimp only
    exact calculate_weighted_score_eq_spec _ hrange
  · unfold score_payment
    dsimp only
    simp

/-- C9 witness: concrete aggregation on the base chain (threshold 0.8, a
valid 42-character address, amount 1, 2 confirmations, no timestamp, no
external factor). -/
theorem risk_score_weighted_average_witness :
    (score_payment 1 (4/5) "base" "0xaaaaaaaaaaaaaaaaaaaaaaaaaaaaaaaaaaaaaaaa" 1 2 none none).score =
      spec_weighted_average (payment_factors "base" "0xaaaaaaaaaaaaaaaaaaaaaaaaaaaaaaaaaaaaaaaa" 1 2 none none) :=
  (risk_score_weighted_average (4/5) "base" "0xaaaaaaaaaaaaaaaaaaaaaaaaaaaaaaaaaaaaaaaa"
    1 2 none none (fun _ he => nomatch he)).1

end X402
